import Mathlib

/-!
# Verification of the `VanillaLocalVolModel` specification

Shallow embedding of `ql/experimental/vanillalocalvolmodel/vanillalocalvolmodel.hpp`
(the only part of the model present under `src/`; the implementation
translation unit is not in the source tree, so the algorithmic components —
ODE local-vol solver, ATM calibrator, ATM adjuster, expectation/variance
evaluator — are modelled from the specification where noted).

Conventions:
* Machine `Real` is modelled by `ℚ` for the discrete/iterative parts (so that
  everything is executable) and by `ℝ` where the closed forms genuinely need
  `exp`/`log`/`sqrt` (segment functions, integration bounds).
* C++ member functions become Lean functions taking the model value
  explicitly; mutation is explicit state passing.
* Fallible construction returns `Except String _` (mirroring `QL_REQUIRE`).
-/

namespace VanillaLocalVol

/-! ## Integration bounds (header, lines 70–71)

`lowerBoundX` / `upperBoundX` are the only nontrivial member functions whose
bodies appear in the header itself:

    inline Real lowerBoundX() const { return -extrapolationStdevs_ * sqrt(T_) + mu_; }
    inline Real upperBoundX() const { return extrapolationStdevs_ * sqrt(T_) + mu_; }

They read the fields `extrapolationStdevs_`, `T_` and `mu_`, so we embed them
over a record holding exactly those fields. -/

structure BoundsParams where
  extrapolationStdevs : ℝ
  T : ℝ
  mu : ℝ

noncomputable def lowerBoundX (p : BoundsParams) : ℝ :=
  -p.extrapolationStdevs * Real.sqrt p.T + p.mu

noncomputable def upperBoundX (p : BoundsParams) : ℝ :=
  p.extrapolationStdevs * Real.sqrt p.T + p.mu

/-! ## Constructor surface (header, lines 107–137)

The header declares exactly two public constructors.  Their parameter lists
and default arguments are embedded as argument records: a field with a
default value in the record corresponds to a C++ parameter with a default
argument (optional at the call site), a field without a default corresponds
to a mandatory parameter. -/

/-- Calibration controls shared by both constructors, with the default
arguments from the header:
`maxCalibrationIters = 5`, `onlyForwardCalibrationIters = 0`,
`adjustATMFlag = true`, `enableLogging = false`, `useInitialMu = false`,
`initialMu = 0.0`. -/
structure CalibControls where
  maxCalibrationIters : ℕ := 5
  onlyForwardCalibrationIters : ℕ := 0
  adjustATMFlag : Bool := true
  enableLogging : Bool := false
  useInitialMu : Bool := false
  initialMu : ℚ := 0

/-- Arguments of the S-grid constructor (header, lines 107–120): mandatory
`T`, `S0`, `sigmaATM`, the four grid/slope vectors, then the defaulted
calibration controls. -/
structure SGridArgs where
  T : ℚ
  S0 : ℚ
  sigmaATM : ℚ
  Sp : List ℚ
  Sm : List ℚ
  Mp : List ℚ
  Mm : List ℚ
  controls : CalibControls := {}

/-- Arguments of the x-grid constructor (header, lines 122–137): mandatory
`T`, `S0`, `sigmaATM`, **and `sigma0`** (a fourth mandatory scalar, with no
default argument in the header), the four grid/slope vectors, then the
defaulted calibration controls. -/
structure XGridArgs where
  T : ℚ
  S0 : ℚ
  sigmaATM : ℚ
  sigma0 : ℚ
  Xp : List ℚ
  Xm : List ℚ
  Mp : List ℚ
  Mm : List ℚ
  controls : CalibControls := {}

/-! ## Calibrated model state (header, lines 33–64)

The private fields of the class, over `ℚ`. -/

structure Model where
  T : ℚ
  S0 : ℚ
  sigmaATM : ℚ
  Sp : List ℚ
  Sm : List ℚ
  Mp : List ℚ
  Mm : List ℚ
  straddleATM : ℚ
  sigma0 : ℚ
  sigmaP : List ℚ
  sigmaM : List ℚ
  Xp : List ℚ
  Xm : List ℚ
  mu : ℚ
  alpha : ℚ
  nu : ℚ
  maxCalibrationIters : ℕ
  onlyForwardCalibrationIters : ℕ
  sigma0Tol : ℚ
  S0Tol : ℚ
  adjustATM : Bool
  useInitialMu : Bool
  initialMu : ℚ
  enableLogging : Bool
  logging : List String
  deriving DecidableEq

/-! ## ODE local-vol solver (`updateLocalVol`)

Modelled from the spec: the translation unit implementing
`updateLocalVol` (header line 97) is not under `src/`; §4.3 of the spec
fixes its contract.  A wing is walked outward one knot at a time from the
centre knot `(x, S, sigma)`.  The closed-form value of the next knot is
abstracted as a `step` parameter returning `Option`, `none` standing for a
non-finite closed-form result; the acceptance/truncation logic below is what
§4.3 specifies: a step is rejected — truncating the wing there — when the
candidate vol is non-positive, non-finite, or the coordinate/level sequence
would stop being strictly monotonic moving away from the centre. -/

/-- A knot of the solver output: normalised coordinate `x`, level `S`,
local vol `sigma`. -/
structure Knot where
  x : ℚ
  S : ℚ
  sigma : ℚ
  deriving DecidableEq

/-- Acceptance test for a candidate next knot (spec §4.3): strictly
monotonic coordinates and levels moving away from the centre
(right wing: increasing; left wing: decreasing), strictly positive vol.
Non-finiteness is handled by the `Option` result of the step. -/
def acceptKnot (isRightWing : Bool) (prev next : Knot) : Bool :=
  if isRightWing then
    decide (prev.x < next.x ∧ prev.S < next.S ∧ 0 < next.sigma)
  else
    decide (next.x < prev.x ∧ next.S < prev.S ∧ 0 < next.sigma)

/-- Modelled from the spec: one wing of `updateLocalVol`.  `slopes` is the
wing's slope array (one entry per prospective knot); `step` produces the
closed-form candidate for the next knot from the previous knot and the
segment slope (`none` when the closed form would be non-finite).  The wing is
truncated at the first rejected step; accepted knots are returned in order
moving away from the centre. -/
def updateLocalVolWing (step : Knot → ℚ → Option Knot) (isRightWing : Bool) :
    Knot → List ℚ → List Knot
  | _, [] => []
  | prev, m :: ms =>
    match step prev m with
    | none => []
    | some next =>
      if acceptKnot isRightWing prev next then
        next :: updateLocalVolWing step isRightWing next ms
      else []

/-! ## ATM calibration loop (`calibrateATM`)

Modelled from the spec: the translation unit implementing `calibrateATM`
(header line 100) is not under `src/`; §4.4 of the spec fixes its contract.
Each round rebuilds the grid and prices the forward and ATM straddle, then
updates `mu` (and, outside the warm-up rounds, `sigma0`); the spec's design
notes (§9) leave the concrete sensitivity formula open, so the per-round
update is a parameter `upd` producing, from the round index and the current
`(mu, sigma0)`, the updated `(mu, sigma0)` and the round's forward error.
During the first `onlyForwardCalibrationIters` rounds `sigma0` is held
fixed.  Convergence is declared exactly when
`|forward error| < S0Tol ∧ |sigma0 change| < sigma0Tol`; exhausting the
iteration cap is non-fatal and merely appends a warning record to the trace
when logging is enabled. -/

/-- One calibration round's observables: the updated `(mu, sigma0)` and the
forward pricing error of the round. -/
structure RoundUpdate where
  mu : ℚ
  sigma0 : ℚ
  fwdError : ℚ

/-- Result of the calibration loop: final state, trace, number of executed
rounds, convergence flag, and the per-round `(forward error, sigma0 change)`
history (innermost round last). -/
structure CalibResult where
  mu : ℚ
  sigma0 : ℚ
  logging : List String
  rounds : ℕ
  converged : Bool
  history : List (ℚ × ℚ)
  deriving DecidableEq

/-- The non-convergence warning record appended to the trace. -/
def calibrationWarning : String :=
  "Warning: ATM calibration did not converge"

/-- Convergence criterion of spec §4.4:
`|forward error| < S0Tol ∧ |sigma0 change| < sigma0Tol`. -/
def convergedRound (S0Tol sigma0Tol fwdError sigmaChange : ℚ) : Bool :=
  decide (|fwdError| < S0Tol ∧ |sigmaChange| < sigma0Tol)

/-- Modelled from the spec: the two-phase calibration loop of §4.4.
`idx` is the current round index, the second `ℕ` argument the remaining
fuel (initially `maxCalibrationIters`). -/
def calibLoop (upd : ℕ → ℚ → ℚ → RoundUpdate)
    (onlyFwdIters : ℕ) (S0Tol sigma0Tol : ℚ) (enableLogging : Bool) :
    ℕ → ℕ → ℚ → ℚ → List String → CalibResult
  | _, 0, mu, s0, log =>
      { mu := mu, sigma0 := s0
        logging := if enableLogging then log ++ [calibrationWarning] else log
        rounds := 0, converged := false, history := [] }
  | idx, fuel + 1, mu, s0, log =>
      let u := upd idx mu s0
      let s0' := if idx < onlyFwdIters then s0 else u.sigma0
      if convergedRound S0Tol sigma0Tol u.fwdError (s0' - s0) then
        { mu := u.mu, sigma0 := s0', logging := log
          rounds := 1, converged := true, history := [(u.fwdError, s0' - s0)] }
      else
        let r := calibLoop upd onlyFwdIters S0Tol sigma0Tol enableLogging
          (idx + 1) fuel u.mu s0' log
        { r with rounds := r.rounds + 1
                 history := (u.fwdError, s0' - s0) :: r.history }

/-- Modelled from the spec: `calibrateATM` runs the loop for at most
`maxCalibrationIters` rounds starting from the seeded `(mu, sigma0)`. -/
def calibrateATM (upd : ℕ → ℚ → ℚ → RoundUpdate)
    (maxCalibrationIters onlyFwdIters : ℕ) (S0Tol sigma0Tol : ℚ)
    (enableLogging : Bool) (mu0 sigma00 : ℚ) (log0 : List String) :
    CalibResult :=
  calibLoop upd onlyFwdIters S0Tol sigma0Tol enableLogging
    0 maxCalibrationIters mu0 sigma00 log0

/-! ## Construction pipeline

Modelled from the spec: the translation unit implementing the two
constructors (header lines 107–137) and
`initializeDeepInTheModelParameters` (header line 67) is not under `src/`.
Spec §4.1/§7: mismatched grid/slope lengths, a non-monotonic input grid and
a non-positive expiry are fatal configuration errors detected before any
calibration work begins; otherwise the calibration loop runs, then the ODE
solver output is stored, and the model becomes an immutable value.

The closed-form solver step, the calibration round update and the deep
numerical parameters (tolerances, straddle target — all set in the missing
translation unit) are carried as parameters `step`, `upd`, `deep`; the
optional post-hoc adjuster is modelled separately below, since its inputs
come from the evaluator. -/

/-- Modelled from the spec: numerical accuracy parameters and the ATM
straddle target set by `initializeDeepInTheModelParameters`; the header
comment documents the `extrapolationStdevs` default 10, the remaining
values are not in `src/`. -/
structure DeepParams where
  extrapolationStdevs : ℚ := 10
  sigma0Tol : ℚ
  S0Tol : ℚ
  straddleATM : ℚ

/-- The seed for `mu`: the caller-supplied `initialMu` when `useInitialMu`
is set, otherwise `0` (spec §4.4). -/
def seedMu (c : CalibControls) : ℚ :=
  if c.useInitialMu then c.initialMu else 0

/-- The configuration-error message for mismatched grid/slope lengths. -/
def lengthMismatchError : String :=
  "VanillaLocalVolModel: grid and slope arrays must have equal length per wing"

/-- The configuration-error message for a bad expiry or non-monotonic grid. -/
def badGridError : String :=
  "VanillaLocalVolModel: expiry must be positive and the input grid strictly monotonic per wing"

/-- Strict-monotonicity check of an input wing grid moving away from the
centre value (`increasing` for the right wing, decreasing otherwise). -/
def monotonicGrid (increasing : Bool) : ℚ → List ℚ → Bool
  | _, [] => true
  | prev, a :: rest =>
      (if increasing then decide (prev < a) else decide (a < prev))
        && monotonicGrid increasing a rest

/-- Shared final stage of both constructors: run the ATM calibration from
the seeded `(mu, sigma0)`, rebuild both wings with the ODE solver at the
calibrated state, and freeze the model (spec §2 control flow). -/
def buildModel (step : Knot → ℚ → Option Knot) (upd : ℕ → ℚ → ℚ → RoundUpdate)
    (deep : DeepParams) (T S0 sigmaATM sigma0Guess : ℚ)
    (Mp Mm : List ℚ) (c : CalibControls) : Model :=
  let r := calibrateATM upd c.maxCalibrationIters c.onlyForwardCalibrationIters
    deep.S0Tol deep.sigma0Tol c.enableLogging (seedMu c) sigma0Guess []
  let kP := updateLocalVolWing step true ⟨r.mu, S0, r.sigma0⟩ Mp
  let kM := updateLocalVolWing step false ⟨r.mu, S0, r.sigma0⟩ Mm
  { T := T, S0 := S0, sigmaATM := sigmaATM
    Sp := kP.map Knot.S, Sm := kM.map Knot.S, Mp := Mp, Mm := Mm
    straddleATM := deep.straddleATM, sigma0 := r.sigma0
    sigmaP := kP.map Knot.sigma, sigmaM := kM.map Knot.sigma
    Xp := kP.map Knot.x, Xm := kM.map Knot.x
    mu := r.mu, alpha := 1, nu := 0
    maxCalibrationIters := c.maxCalibrationIters
    onlyForwardCalibrationIters := c.onlyForwardCalibrationIters
    sigma0Tol := deep.sigma0Tol, S0Tol := deep.S0Tol
    adjustATM := c.adjustATMFlag, useInitialMu := c.useInitialMu
    initialMu := c.initialMu, enableLogging := c.enableLogging
    logging := r.logging }

/-- Modelled from the spec: the S-grid constructor (header lines 107–120).
The initial `sigma0` guess of the calibration is the ATM vol. -/
def mkModelFromSGrid (step : Knot → ℚ → Option Knot)
    (upd : ℕ → ℚ → ℚ → RoundUpdate) (deep : DeepParams) (a : SGridArgs) :
    Except String Model :=
  if a.Sp.length ≠ a.Mp.length ∨ a.Sm.length ≠ a.Mm.length then
    .error lengthMismatchError
  else if monotonicGrid true a.S0 a.Sp && monotonicGrid false a.S0 a.Sm
      && decide (0 < a.T) then
    .ok (buildModel step upd deep a.T a.S0 a.sigmaATM a.sigmaATM a.Mp a.Mm a.controls)
  else .error badGridError

/-- Modelled from the spec: the x-grid constructor (header lines 122–137).
The initial `sigma0` guess of the calibration is the mandatory `sigma0`
argument; the input coordinates are strictly monotonic away from the
centre coordinate `0`. -/
def mkModelFromXGrid (step : Knot → ℚ → Option Knot)
    (upd : ℕ → ℚ → ℚ → RoundUpdate) (deep : DeepParams) (a : XGridArgs) :
    Except String Model :=
  if a.Xp.length ≠ a.Mp.length ∨ a.Xm.length ≠ a.Mm.length then
    .error lengthMismatchError
  else if monotonicGrid true 0 a.Xp && monotonicGrid false 0 a.Xm
      && decide (0 < a.T) then
    .ok (buildModel step upd deep a.T a.S0 a.sigmaATM a.sigma0 a.Mp a.Mm a.controls)
  else .error badGridError

/-! ## Segment functions (header lines 74–88)

Modelled from the spec: the bodies of the unsafe per-segment primitives
`localVol(bool, Size, Real)`, `underlyingS(bool, Size, Real)` and
`underlyingX(bool, Size, Real)` are in the missing translation unit; spec
§4.2 fixes them as the closed-form solution of
`d(level)/d(coord) = localVol(level)` for the vol linear in the level on the
segment.  A segment is anchored at knot `(xk, Sk)` with vol `sigk` and slope
`m`: `slope ≠ 0` gives the exponential-affine closed form, `slope = 0`
degenerates to the linear (Gaussian) case.  These live over `ℝ` because the
closed form genuinely uses `exp`/`log`. -/

/-- Local vol on a segment: linear in the level (spec §4.2). -/
def localVolSeg (Sk sigk m S : ℝ) : ℝ :=
  sigk + m * (S - Sk)

/-- Modelled from the spec: `underlyingS` on one segment — the level as a
function of the coordinate, closed-form ODE solution. -/
noncomputable def underlyingSSeg (xk Sk sigk m x : ℝ) : ℝ :=
  if m = 0 then Sk + sigk * (x - xk)
  else Sk + sigk / m * (Real.exp (m * (x - xk)) - 1)

/-- Modelled from the spec: `underlyingX` on one segment — the coordinate as
a function of the level, inverse closed form. -/
noncomputable def underlyingXSeg (xk Sk sigk m S : ℝ) : ℝ :=
  if m = 0 then xk + (S - Sk) / sigk
  else xk + Real.log (1 + m * (S - Sk) / sigk) / m

/-! ## ATM adjuster (`adjustATM`, header line 103)

Modelled from the spec: the translation unit implementing `adjustATM` is not
under `src/`; spec §4.5 fixes its contract.  The evaluator's post-adjustment
forward and ATM straddle are affine in `(alpha, nu)` (the payoff factor is
`alpha * S + nu`, spec §4.2): forward `= F1*alpha + F0*nu` and straddle
`= A1*alpha + A0*nu`, with the four coefficients computed by the evaluator
from the frozen grid.  The adjuster solves the 2×2 linear system making the
forward equal `S0` and the straddle equal the target, writing only `alpha`
and `nu` — it does not re-run the ODE solver nor touch the grids. -/

/-- Cramer solution of `a11*x + a12*y = b1`, `a21*x + a22*y = b2`. -/
def solve2x2 (a11 a12 a21 a22 b1 b2 : ℚ) : ℚ × ℚ :=
  let det := a11 * a22 - a12 * a21
  ((b1 * a22 - a12 * b2) / det, (a11 * b2 - a21 * b1) / det)

/-- Modelled from the spec: `adjustATM` — solve for `(alpha, nu)` from the
evaluator's affine coefficients and write only those two fields. -/
def adjustATMModel (m : Model) (F1 F0 A1 A0 : ℚ) : Model :=
  let p := solve2x2 F1 F0 A1 A0 m.S0 m.straddleATM
  { m with alpha := p.1, nu := p.2 }

/-! ## Query-level local vol (`localVol(Real S)`, header line 164)

Modelled from the spec: the body is in the missing translation unit; the vol
function is piecewise linear on the calibrated segments and is held flat
beyond the last accepted knot and beyond the extrapolation bound
(spec §4.3/§7).  A wing is the list of entries `(S_k, sigma_k, M_k)` —
knot level, knot vol, segment slope — in order away from the centre. -/

/-- Right-wing vol lookup walking outward from the previous knot
`(Sprev, sigPrev)`; beyond the last knot the vol is flat. -/
def localVolRight (Sprev sigPrev : ℚ) : List (ℚ × ℚ × ℚ) → ℚ → ℚ
  | [], _ => sigPrev
  | (Sk, sigk, Mk) :: rest, S =>
      if S < Sk then sigPrev + Mk * (S - Sprev)
      else localVolRight Sk sigk rest S

/-- Left-wing vol lookup (levels decrease away from the centre). -/
def localVolLeft (Sprev sigPrev : ℚ) : List (ℚ × ℚ × ℚ) → ℚ → ℚ
  | [], _ => sigPrev
  | (Sk, sigk, Mk) :: rest, S =>
      if Sk < S then sigPrev + Mk * (S - Sprev)
      else localVolLeft Sk sigk rest S

/-- The flat tail value of a wing: the vol of its outermost knot. -/
def tailVol (sigPrev : ℚ) : List (ℚ × ℚ × ℚ) → ℚ
  | [] => sigPrev
  | (_, sigk, _) :: rest => tailVol sigk rest

/-- A wing of the calibrated model as `(S_k, sigma_k, M_k)` entries. -/
def wingSegs (m : Model) (isRightWing : Bool) : List (ℚ × ℚ × ℚ) :=
  if isRightWing then m.Sp.zip (m.sigmaP.zip m.Mp)
  else m.Sm.zip (m.sigmaM.zip m.Mm)

/-- The model-level query `localVol(Real S)`: dispatch on the wing
containing `S` and walk that wing outward from the centre knot. -/
def localVolQuery (m : Model) (S : ℚ) : ℚ :=
  if m.S0 ≤ S then localVolRight m.S0 m.sigma0 (wingSegs m true) S
  else localVolLeft m.S0 m.sigma0 (wingSegs m false) S

/-! ## Expectation / variance evaluator (header lines 170–173)

Modelled from the spec: the bodies of `expectation` and `variance` are in
the missing translation unit; spec §4.6 fixes the algorithm: locate the
strike's coordinate (beyond the outermost knot the coordinate map uses the
flat tail vol, hence is linear), then sum the closed-form per-segment
primitive over the part of each segment lying between the strike coordinate
and the extrapolation bound.  The per-segment primitives (they involve the
normal density, spec §4.2) are carried as a parameter `prim`; the upper
integration bound `hi` is the caller's `upperBoundX()` (its formula is the
subject of `lowerBoundX`/`upperBoundX` above). -/

/-- Contribution of one segment `[a, b]` to the integral over `[xK, hi]`:
the primitive `p` evaluated over the (possibly empty) intersection. -/
def segContrib (p : ℚ → ℚ) (a b xK hi : ℚ) : ℚ :=
  let lo := max a xK
  let up := min b hi
  if lo < up then p up - p lo else 0

/-- Sum of the per-segment primitives over `[xK, hi]`.  `xPrev` is the left
boundary of segment `k`, `xs` the remaining knot coordinates; the final
(tail) segment extends from the outermost knot to the bound `hi` with flat
vol. -/
def sumPrim (prim : ℕ → ℚ → ℚ) : ℕ → ℚ → List ℚ → ℚ → ℚ → ℚ
  | k, xPrev, [], xK, hi => segContrib (prim k) xPrev hi xK hi
  | k, xPrev, xNext :: rest, xK, hi =>
      segContrib (prim k) xPrev xNext xK hi + sumPrim prim (k + 1) xNext rest xK hi

/-- The strike's coordinate on the flat tail of the right wing: beyond the
outermost knot `(xLast, SLast)` the vol is the constant `sigTail`, so the
coordinate map is linear (spec §4.2, slope-0 case). -/
def tailCoord (xLast SLast sigTail K : ℚ) : ℚ :=
  xLast + (K - SLast) / sigTail

/-- Modelled from the spec: the right-wing `expectation`/`variance` sum once
the strike coordinate `xK` is known — the per-segment primitives summed from
the strike out to the extrapolation bound (spec §4.6); `expectation` and
`variance` differ only in `prim` (`primitiveF` vs `primitiveFSquare`). -/
def evalQueryRight (prim : ℕ → ℚ → ℚ) (mu : ℚ) (Xp : List ℚ) (hi xK : ℚ) : ℚ :=
  sumPrim prim 0 mu Xp xK hi

/-! ## The remaining query surface and explicit state passing (spec §5)

Modelled from the spec: the header declares the value queries and the
full-vector accessors without `const` (lines 155–173) and their bodies are
in the missing translation unit; spec §5 states that all query operations
are side-effect-free and that no field is written after construction.
Mutation being explicit state passing in this embedding, each query below
returns its result together with the model state it leaves behind. -/

/-- Modelled from the spec: the query `underlyingS(Real x)` — locate the
segment containing the coordinate and apply the per-segment closed form
(carried as `lvl`, it uses `exp`); beyond the outermost knot the level is
affine in the coordinate with the flat tail vol. -/
def underlyingSWalk (lvl : ℕ → ℚ → ℚ) : ℕ → Knot → List Knot → ℚ → ℚ
  | _, prev, [], x => prev.S + prev.sigma * (x - prev.x)
  | k, _prev, kn :: rest, x =>
      if x < kn.x then lvl k x else underlyingSWalk lvl (k + 1) kn rest x

/-- Full-grid accessor `underlyingX()` (header line 157): merged left+right
coordinates in level order, centre knot included. -/
def underlyingXVec (m : Model) : List ℚ :=
  m.Xm.reverse ++ [m.mu] ++ m.Xp

/-- Full-grid accessor `underlyingS()` (header line 158). -/
def underlyingSVec (m : Model) : List ℚ :=
  m.Sm.reverse ++ [m.S0] ++ m.Sp

/-- Full-grid accessor `localVol()` (header line 159). -/
def localVolVec (m : Model) : List ℚ :=
  m.sigmaM.reverse ++ [m.sigma0] ++ m.sigmaP

/-- Full-grid accessor `localVolSlope()` (header line 160). -/
def localVolSlopeVec (m : Model) : List ℚ :=
  m.Mm.reverse ++ m.Mp

/-- The inspectors (header lines 141–153), bundled. -/
def inspectors (m : Model) :
    List String × ℚ × ℚ × ℚ × ℚ × ℚ × ℚ × ℕ × ℕ × Bool × Bool × Bool × ℚ :=
  (m.logging, m.T, m.S0, m.sigmaATM, m.alpha, m.mu, m.nu,
   m.maxCalibrationIters, m.onlyForwardCalibrationIters,
   m.adjustATM, m.enableLogging, m.useInitialMu, m.initialMu)

/-- State-passing `localVol(Real S)`. -/
def localVolQueryM (m : Model) (S : ℚ) : ℚ × Model :=
  (localVolQuery m S, m)

/-- State-passing `underlyingS(Real x)` (right wing shown; the left wing is
symmetric through `lvl`). -/
def underlyingSQueryM (lvl : ℕ → ℚ → ℚ) (m : Model) (x : ℚ) : ℚ × Model :=
  (underlyingSWalk lvl 0 ⟨m.mu, m.S0, m.sigma0⟩
    ((m.Xp.zip (m.Sp.zip m.sigmaP)).map fun t => ⟨t.1, t.2.1, t.2.2⟩) x, m)

/-- State-passing `expectation(bool, Real)` at strike coordinate `xK`. -/
def expectationQueryM (prim : ℕ → ℚ → ℚ) (m : Model) (hi xK : ℚ) : ℚ × Model :=
  (evalQueryRight prim m.mu m.Xp hi xK, m)

/-- State-passing `variance(bool, Real)` at strike coordinate `xK`;
it differs from `expectation` only in using the squared-payoff primitive
(spec §4.6). -/
def varianceQueryM (primSq : ℕ → ℚ → ℚ) (m : Model) (hi xK : ℚ) : ℚ × Model :=
  (evalQueryRight primSq m.mu m.Xp hi xK, m)

/-- State-passing full-grid accessors, bundled. -/
def gridAccessorsM (m : Model) : (List ℚ × List ℚ × List ℚ × List ℚ) × Model :=
  ((underlyingXVec m, underlyingSVec m, localVolVec m, localVolSlopeVec m), m)

/-- State-passing inspectors. -/
def inspectorsM (m : Model) :
    (List String × ℚ × ℚ × ℚ × ℚ × ℚ × ℚ × ℕ × ℕ × Bool × Bool × Bool × ℚ) × Model :=
  (inspectors m, m)

/-! ## Auxiliary predicates and concrete instances -/

/-- Strict monotonicity of adjacent knots moving away from the centre:
coordinates and levels both increase on the right wing and both decrease on
the left wing. -/
def wingRel (isRightWing : Bool) (a b : Knot) : Prop :=
  if isRightWing then a.x < b.x ∧ a.S < b.S else b.x < a.x ∧ b.S < a.S

instance (isRightWing : Bool) (a b : Knot) : Decidable (wingRel isRightWing a b) := by
  unfold wingRel; infer_instance

/-- A trivial solver step (every closed-form value non-finite); used to
instantiate the step parameter on concrete inputs. -/
def stepNone : Knot → ℚ → Option Knot := fun _ _ => none

/-- A trivial calibration round update (no movement, zero forward error);
used to instantiate the update parameter on concrete inputs. -/
def updZero : ℕ → ℚ → ℚ → RoundUpdate := fun _ mu s0 => ⟨mu, s0, 0⟩

/-- Concrete deep parameters for instantiations. -/
def deepEx : DeepParams :=
  { sigma0Tol := 1, S0Tol := 1, straddleATM := 8 }

/-- A concrete calibrated model state for instantiations. -/
def modelEx : Model :=
  { T := 1, S0 := 100, sigmaATM := 20
    Sp := [110, 120], Sm := [90, 80], Mp := [0, 0], Mm := [0, 0]
    straddleATM := 8, sigma0 := 20
    sigmaP := [20, 20], sigmaM := [20, 20]
    Xp := [1, 2], Xm := [-1, -2]
    mu := 0, alpha := 1, nu := 0
    maxCalibrationIters := 5, onlyForwardCalibrationIters := 0
    sigma0Tol := 1, S0Tol := 1
    adjustATM := true, useInitialMu := false, initialMu := 0
    enableLogging := false, logging := [] }

/-- Concrete S-grid arguments with `maxCalibrationIters = 0` and logging
enabled (spec §8, scenario C). -/
def sGridArgsC : SGridArgs :=
  { T := 1, S0 := 100, sigmaATM := 20
    Sp := [110], Sm := [90], Mp := [0], Mm := [0]
    controls := { maxCalibrationIters := 0, enableLogging := true } }

/-- Concrete S-grid arguments with a right-wing grid of length 2 and a
right-wing slope array of length 1 (spec §8, scenario B). -/
def sGridArgsB : SGridArgs :=
  { T := 1, S0 := 100, sigmaATM := 20
    Sp := [110, 120], Sm := [90], Mp := [0], Mm := [0] }

/-- Concrete x-grid arguments with `maxCalibrationIters = 0` and logging
enabled (spec §8, scenario C, coordinate-grid form). -/
def xGridArgsC : XGridArgs :=
  { T := 1, S0 := 100, sigmaATM := 20, sigma0 := 20
    Xp := [1], Xm := [-1], Mp := [0], Mm := [0]
    controls := { maxCalibrationIters := 0, enableLogging := true } }

/-- Concrete x-grid arguments with the analogous length mismatch. -/
def xGridArgsB : XGridArgs :=
  { T := 1, S0 := 100, sigmaATM := 20, sigma0 := 20
    Xp := [1, 2], Xm := [-1], Mp := [0], Mm := [0] }

/-- Concrete x-grid arguments; `sigma0 = 20`. -/
def xGridArgs1 : XGridArgs :=
  { T := 1, S0 := 100, sigmaATM := 20, sigma0 := 20
    Xp := [1], Xm := [-1], Mp := [0], Mm := [0]
    controls := { maxCalibrationIters := 0 } }

/-- The same x-grid arguments except for the mandatory `sigma0`, here 40:
every argument the claim lists (`T`, `S0`, `sigmaATM`, grids, slopes,
controls) agrees with `xGridArgs1`. -/
def xGridArgs2 : XGridArgs :=
  { T := 1, S0 := 100, sigmaATM := 20, sigma0 := 40
    Xp := [1], Xm := [-1], Mp := [0], Mm := [0]
    controls := { maxCalibrationIters := 0 } }

/-! # Theorems -/

/-! ## Helper lemmas -/

theorem acceptKnot_iff (isRightWing : Bool) (p n : Knot) :
    acceptKnot isRightWing p n = true ↔ wingRel isRightWing p n ∧ 0 < n.sigma := by
  cases isRightWing <;> simp [acceptKnot, wingRel, and_assoc]

/-- Core invariant of the wing solver: the accepted knots form a strictly
monotonic chain away from the centre, every accepted vol is positive, and
the walk takes at most one step per slope entry — for every closed-form
step function. -/
theorem updateLocalVolWing_spec (step : Knot → ℚ → Option Knot) (isRightWing : Bool)
    (start : Knot) (slopes : List ℚ) :
    List.Chain (wingRel isRightWing) start (updateLocalVolWing step isRightWing start slopes)
    ∧ (∀ kn ∈ updateLocalVolWing step isRightWing start slopes, 0 < kn.sigma)
    ∧ (updateLocalVolWing step isRightWing start slopes).length ≤ slopes.length := by
  induction slopes generalizing start with
  | nil => simp [updateLocalVolWing]
  | cons mh ms ih =>
    cases hs : step start mh with
    | none => simp [updateLocalVolWing, hs]
    | some next =>
      by_cases ha : acceptKnot isRightWing start next = true
      · obtain ⟨hrel, hpos⟩ := (acceptKnot_iff _ _ _).1 ha
        obtain ⟨c1, c2, c3⟩ := ih next
        simp only [updateLocalVolWing, hs, ha, if_true]
        refine ⟨List.Chain.cons hrel c1, ?_, ?_⟩
        · intro kn hkn
          rcases List.mem_cons.1 hkn with h | h
          · exact h ▸ hpos
          · exact c2 kn h
        · simpa using Nat.succ_le_succ c3
      · simp [updateLocalVolWing, hs, ha]

theorem localVolRight_flat (Sprev sigPrev : ℚ) (segs : List (ℚ × ℚ × ℚ)) (S : ℚ)
    (h : ∀ e ∈ segs, e.1 ≤ S) :
    localVolRight Sprev sigPrev segs S = tailVol sigPrev segs := by
  induction segs generalizing Sprev sigPrev with
  | nil => rfl
  | cons e rest ih =>
    obtain ⟨Sk, sigk, Mk⟩ := e
    have h1 : Sk ≤ S := h (Sk, sigk, Mk) (List.mem_cons_self _ _)
    rw [localVolRight, if_neg (not_lt.2 h1), tailVol]
    exact ih Sk sigk fun e he => h e (List.mem_cons_of_mem _ he)

theorem localVolLeft_flat (Sprev sigPrev : ℚ) (segs : List (ℚ × ℚ × ℚ)) (S : ℚ)
    (h : ∀ e ∈ segs, S ≤ e.1) :
    localVolLeft Sprev sigPrev segs S = tailVol sigPrev segs := by
  induction segs generalizing Sprev sigPrev with
  | nil => rfl
  | cons e rest ih =>
    obtain ⟨Sk, sigk, Mk⟩ := e
    have h1 : S ≤ Sk := h (Sk, sigk, Mk) (List.mem_cons_self _ _)
    rw [localVolLeft, if_neg (not_lt.2 h1), tailVol]
    exact ih Sk sigk fun e he => h e (List.mem_cons_of_mem _ he)

theorem segContrib_empty (p : ℚ → ℚ) (a b xK hi : ℚ) (h : hi ≤ xK) :
    segContrib p a b xK hi = 0 := by
  unfold segContrib
  exact if_neg (not_lt.2 ((min_le_right b hi).trans (h.trans (le_max_right a xK))))

theorem sumPrim_empty (prim : ℕ → ℚ → ℚ) (k : ℕ) (xPrev : ℚ) (xs : List ℚ)
    (xK hi : ℚ) (h : hi ≤ xK) :
    sumPrim prim k xPrev xs xK hi = 0 := by
  induction xs generalizing k xPrev with
  | nil => exact segContrib_empty _ _ _ _ _ h
  | cons xn rest ih =>
    rw [sumPrim, segContrib_empty _ _ _ _ _ h, ih, add_zero]

theorem solve2x2_spec (a11 a12 a21 a22 b1 b2 : ℚ)
    (hdet : a11 * a22 - a12 * a21 ≠ 0) :
    a11 * (solve2x2 a11 a12 a21 a22 b1 b2).1
        + a12 * (solve2x2 a11 a12 a21 a22 b1 b2).2 = b1
    ∧ a21 * (solve2x2 a11 a12 a21 a22 b1 b2).1
        + a22 * (solve2x2 a11 a12 a21 a22 b1 b2).2 = b2 := by
  constructor <;>
  · simp only [solve2x2]
    field_simp
    ring

/-- The derivative relation the segment closed form solves: the vol at the
level `underlyingSSeg x` equals `sigk * exp (m * (x - xk))` (slope ≠ 0), the
derivative of `underlyingSSeg` in `x`; it substantiates that `underlyingSSeg`
is the solution of the segment ODE rather than an invented map. -/
theorem localVolSeg_underlyingSSeg (xk Sk sigk m x : ℝ) :
    localVolSeg Sk sigk m (underlyingSSeg xk Sk sigk m x)
      = if m = 0 then sigk else sigk * Real.exp (m * (x - xk)) := by
  by_cases hm : m = 0
  · simp [localVolSeg, underlyingSSeg, hm]
  · field_simp [localVolSeg, underlyingSSeg, hm]
    ring

/-! ## Claim theorems -/

/-- C1: for every construction (any closed-form step function, any
calibration round update, any input grid), the constructed wing coordinate
arrays are strictly monotonic moving away from the centre (`Xp` increasing
from `mu`, `Xm` decreasing), the level arrays are strictly monotonic away
from `S0`, every stored local-vol value is strictly positive, and each wing
holds at most one knot per slope entry: the solver truncates the wing
instead of storing a non-positive vol or an inverted level sequence, and a
non-finite closed-form step (`none`) likewise truncates, so no stored value
is non-finite (all values are rationals by construction). -/
theorem updateLocalVol_grid_invariants (step : Knot → ℚ → Option Knot)
    (upd : ℕ → ℚ → ℚ → RoundUpdate) (deep : DeepParams)
    (T S0 sigmaATM sigma0Guess : ℚ) (Mp Mm : List ℚ) (c : CalibControls) :
    let M := buildModel step upd deep T S0 sigmaATM sigma0Guess Mp Mm c
    List.Chain (· < ·) M.mu M.Xp
    ∧ List.Chain (fun a b => b < a) M.mu M.Xm
    ∧ List.Chain (· < ·) M.S0 M.Sp
    ∧ List.Chain (fun a b => b < a) M.S0 M.Sm
    ∧ (∀ s ∈ M.sigmaP, 0 < s)
    ∧ (∀ s ∈ M.sigmaM, 0 < s)
    ∧ M.Xp.length ≤ Mp.length
    ∧ M.Xm.length ≤ Mm.length := by
  intro M
  let r := calibrateATM upd c.maxCalibrationIters c.onlyForwardCalibrationIters
    deep.S0Tol deep.sigma0Tol c.enableLogging (seedMu c) sigma0Guess []
  let startK : Knot := ⟨r.mu, S0, r.sigma0⟩
  let kP := updateLocalVolWing step true startK Mp
  let kM := updateLocalVolWing step false startK Mm
  have hXp : M.Xp = kP.map Knot.x := rfl
  have hXm : M.Xm = kM.map Knot.x := rfl
  have hSp : M.Sp = kP.map Knot.S := rfl
  have hSm : M.Sm = kM.map Knot.S := rfl
  have hsigP : M.sigmaP = kP.map Knot.sigma := rfl
  have hsigM : M.sigmaM = kM.map Knot.sigma := rfl
  have hmu : M.mu = startK.x := rfl
  have hS0 : M.S0 = startK.S := rfl
  rw [hXp, hXm, hSp, hSm, hsigP, hsigM, hmu, hS0]
  obtain ⟨cP, pP, lP⟩ := updateLocalVolWing_spec step true startK Mp
  obtain ⟨cM, pM, lM⟩ := updateLocalVolWing_spec step false startK Mm
  refine ⟨?_, ?_, ?_, ?_, ?_, ?_, ?_, ?_⟩
  · exact (List.chain_map Knot.x).2 (cP.imp fun a b h => h.1)
  · exact (List.chain_map Knot.x).2 (cM.imp fun a b h => h.1)
  · exact (List.chain_map Knot.S).2 (cP.imp fun a b h => h.2)
  · exact (List.chain_map Knot.S).2 (cM.imp fun a b h => h.2)
  · intro s hs
    obtain ⟨kn, hkn, rfl⟩ := List.mem_map.1 hs
    exact pP kn hkn
  · intro s hs
    obtain ⟨kn, hkn, rfl⟩ := List.mem_map.1 hs
    exact pM kn hkn
  · simpa using lP
  · simpa using lM

/-- C2: with the post-hoc ATM adjustment enabled, `adjustATM` solves a 2×2
linear system for `(alpha, nu)` without re-running the ODE solver or
changing the vol grid: afterwards the evaluator's forward equals `S0`
exactly (hence within any tolerance) and the ATM straddle equals the target
exactly, while every grid field and the in-the-model parameters are left
untouched. -/
theorem adjustATM_exact (m : Model) (F1 F0 A1 A0 : ℚ)
    (hdet : F1 * A0 - F0 * A1 ≠ 0) :
    let M' := adjustATMModel m F1 F0 A1 A0
    F1 * M'.alpha + F0 * M'.nu = m.S0
    ∧ A1 * M'.alpha + A0 * M'.nu = m.straddleATM
    ∧ M'.Xp = m.Xp ∧ M'.Xm = m.Xm
    ∧ M'.sigmaP = m.sigmaP ∧ M'.sigmaM = m.sigmaM
    ∧ M'.Sp = m.Sp ∧ M'.Sm = m.Sm
    ∧ M'.sigma0 = m.sigma0 ∧ M'.mu = m.mu := by
  intro M'
  have h := solve2x2_spec F1 F0 A1 A0 m.S0 m.straddleATM hdet
  exact ⟨h.1, h.2, rfl, rfl, rfl, rfl, rfl, rfl, rfl, rfl⟩

/-- C2 witness: the adjuster at a concrete model and concrete nonsingular
evaluator coefficients. -/
theorem adjustATM_exact_witness :
    ((1 : ℚ) * 1 - 0 * 0 ≠ 0)
    ∧ (let M' := adjustATMModel modelEx 1 0 0 1
       1 * M'.alpha + 0 * M'.nu = modelEx.S0
       ∧ 0 * M'.alpha + 1 * M'.nu = modelEx.straddleATM
       ∧ M'.Xp = modelEx.Xp ∧ M'.Xm = modelEx.Xm
       ∧ M'.sigmaP = modelEx.sigmaP ∧ M'.sigmaM = modelEx.sigmaM
       ∧ M'.Sp = modelEx.Sp ∧ M'.Sm = modelEx.Sm
       ∧ M'.sigma0 = modelEx.sigma0 ∧ M'.mu = modelEx.mu) :=
  ⟨by simp, adjustATM_exact modelEx 1 0 0 1 (by simp)⟩

/-- C9: after construction no field is ever written again — every query
operation (the point evaluators, the payoff pricers, the full-grid
accessors and the inspectors, all modelled as explicitly state-passing
functions) returns the model state unchanged and yields the same result on
a repeated call with the same argument. -/
theorem queries_pure (m : Model) (S x hi xK : ℚ) (prim primSq lvl : ℕ → ℚ → ℚ) :
    (localVolQueryM m S).2 = m
    ∧ (localVolQueryM (localVolQueryM m S).2 S).1 = (localVolQueryM m S).1
    ∧ (underlyingSQueryM lvl m x).2 = m
    ∧ (underlyingSQueryM lvl (underlyingSQueryM lvl m x).2 x).1
        = (underlyingSQueryM lvl m x).1
    ∧ (expectationQueryM prim m hi xK).2 = m
    ∧ (expectationQueryM prim (expectationQueryM prim m hi xK).2 hi xK).1
        = (expectationQueryM prim m hi xK).1
    ∧ (varianceQueryM primSq m hi xK).2 = m
    ∧ (varianceQueryM primSq (varianceQueryM primSq m hi xK).2 hi xK).1
        = (varianceQueryM primSq m hi xK).1
    ∧ (gridAccessorsM m).2 = m
    ∧ (gridAccessorsM (gridAccessorsM m).2).1 = (gridAccessorsM m).1
    ∧ (inspectorsM m).2 = m
    ∧ (inspectorsM (inspectorsM m).2).1 = (inspectorsM m).1 :=
  ⟨rfl, rfl, rfl, rfl, rfl, rfl, rfl, rfl, rfl, rfl, rfl, rfl⟩

/-- C10: the integration/extrapolation bounds are exactly
`mu - extrapolationStdevs * sqrt T` and `mu + extrapolationStdevs * sqrt T`:
the flat-extrapolation region is centred at the forward shift `mu` (their
midpoint is `mu`), and both bounds translate with `mu`. -/
theorem boundsX_centered_at_mu (p : BoundsParams) (d : ℝ) :
    lowerBoundX p = p.mu - p.extrapolationStdevs * Real.sqrt p.T
    ∧ upperBoundX p = p.mu + p.extrapolationStdevs * Real.sqrt p.T
    ∧ lowerBoundX p + upperBoundX p = 2 * p.mu
    ∧ lowerBoundX ⟨p.extrapolationStdevs, p.T, p.mu + d⟩ = lowerBoundX p + d
    ∧ upperBoundX ⟨p.extrapolationStdevs, p.T, p.mu + d⟩ = upperBoundX p + d := by
  unfold lowerBoundX upperBoundX
  exact ⟨by ring, by ring, by ring, by ring, by ring⟩

/-- Loop-level specification of the calibration iteration: round count is
bounded by the fuel, the per-round history matches the round count, the
convergence flag holds exactly when the final executed round met the
criterion, and fuel exhaustion without convergence consumes all rounds,
leaves every recorded round failing the criterion, and appends the warning
when logging is enabled. -/
theorem calibLoop_spec (upd : ℕ → ℚ → ℚ → RoundUpdate) (w : ℕ)
    (S0Tol sigma0Tol : ℚ) (el : Bool) :
    ∀ (fuel idx : ℕ) (mu s0 : ℚ) (log : List String),
      (calibLoop upd w S0Tol sigma0Tol el idx fuel mu s0 log).rounds ≤ fuel
      ∧ (calibLoop upd w S0Tol sigma0Tol el idx fuel mu s0 log).rounds
          = (calibLoop upd w S0Tol sigma0Tol el idx fuel mu s0 log).history.length
      ∧ ((calibLoop upd w S0Tol sigma0Tol el idx fuel mu s0 log).converged = true ↔
          ∃ e, (calibLoop upd w S0Tol sigma0Tol el idx fuel mu s0 log).history.getLast?
              = some e
            ∧ convergedRound S0Tol sigma0Tol e.1 e.2 = true)
      ∧ ((calibLoop upd w S0Tol sigma0Tol el idx fuel mu s0 log).converged = false →
          (calibLoop upd w S0Tol sigma0Tol el idx fuel mu s0 log).rounds = fuel
          ∧ (∀ e ∈ (calibLoop upd w S0Tol sigma0Tol el idx fuel mu s0 log).history,
              convergedRound S0Tol sigma0Tol e.1 e.2 = false)
          ∧ (el = true →
              calibrationWarning
                ∈ (calibLoop upd w S0Tol sigma0Tol el idx fuel mu s0 log).logging)) := by
  intro fuel
  induction fuel with
  | zero =>
    intro idx mu s0 log
    refine ⟨Nat.le_refl 0, rfl, by simp [calibLoop],
      fun _ => ⟨rfl, by simp [calibLoop], fun hel => ?_⟩⟩
    simp [calibLoop, hel]
  | succ n ih =>
    intro idx mu s0 log
    simp only [calibLoop]
    by_cases hc : convergedRound S0Tol sigma0Tol (upd idx mu s0).fwdError
        ((if idx < w then s0 else (upd idx mu s0).sigma0) - s0) = true
    · rw [if_pos hc]
      refine ⟨Nat.succ_le_succ (Nat.zero_le n), rfl, ?_, ?_⟩
      · exact ⟨fun _ => ⟨_, rfl, hc⟩, fun _ => rfl⟩
      · intro h
        simp at h
    · rw [if_neg hc]
      obtain ⟨h1, h2, h3, h4⟩ := ih (idx + 1) (upd idx mu s0).mu
        (if idx < w then s0 else (upd idx mu s0).sigma0) log
      set r := calibLoop upd w S0Tol sigma0Tol el (idx + 1) n (upd idx mu s0).mu
        (if idx < w then s0 else (upd idx mu s0).sigma0) log with hr
      refine ⟨Nat.succ_le_succ h1, ?_, ?_, ?_⟩
      · show r.rounds + 1 = (((upd idx mu s0).fwdError,
          (if idx < w then s0 else (upd idx mu s0).sigma0) - s0) :: r.history).length
        rw [List.length_cons, h2]
      · show r.converged = true ↔
          ∃ e, (((upd idx mu s0).fwdError,
            (if idx < w then s0 else (upd idx mu s0).sigma0) - s0)
              :: r.history).getLast? = some e
            ∧ convergedRound S0Tol sigma0Tol e.1 e.2 = true
        cases hh : r.history with
        | nil =>
          constructor
          · intro hcv
            obtain ⟨e, he, -⟩ := h3.1 hcv
            rw [hh] at he
            exact absurd he (by simp)
          · rintro ⟨e, he, hcrit⟩
            simp at he
            subst he
            exact absurd hcrit hc
        | cons a t =>
          rw [List.getLast?_cons_cons, ← hh]
          exact h3
      · intro hcv
        obtain ⟨g1, g2, g3⟩ := h4 hcv
        refine ⟨?_, ?_, g3⟩
        · show r.rounds + 1 = n + 1
          rw [g1]
        · intro e he
          rcases List.mem_cons.1 he with h | h
          · subst h
            simpa using hc
          · exact g2 e h

/-- C3: the ATM calibration loop runs at most `maxCalibrationIters` rounds;
it declares convergence exactly when the executed round satisfied
`|forward error| < S0Tol` and `|sigma0 change| < sigma0Tol`; reaching the
cap without satisfying the criterion raises no exception — the loop is a
total function returning the last iterate's state, with every executed
round recorded as failing the criterion and a warning appended to the trace
when logging is enabled. -/
theorem calibrateATM_bounded_and_exact (upd : ℕ → ℚ → ℚ → RoundUpdate)
    (cap w : ℕ) (S0Tol sigma0Tol : ℚ) (el : Bool) (mu0 s00 : ℚ)
    (log0 : List String) :
    let r := calibrateATM upd cap w S0Tol sigma0Tol el mu0 s00 log0
    r.rounds ≤ cap
    ∧ r.rounds = r.history.length
    ∧ (r.converged = true ↔
        ∃ e, r.history.getLast? = some e
          ∧ convergedRound S0Tol sigma0Tol e.1 e.2 = true)
    ∧ (r.converged = false →
        r.rounds = cap
        ∧ (∀ e ∈ r.history, convergedRound S0Tol sigma0Tol e.1 e.2 = false)
        ∧ (el = true → calibrationWarning ∈ r.logging)) := by
  intro r
  exact calibLoop_spec upd w S0Tol sigma0Tol el cap 0 mu0 s00 log0

/-- C4: a construction input in which a wing's grid array and that wing's
slope array have different lengths fails with the fatal configuration
error, for both construction forms, before any calibration work — the
result is the same error for every solver step and every round update, so
no calibration iteration can have influenced it, and no model value is
produced. -/
theorem mkModel_length_mismatch_error (step : Knot → ℚ → Option Knot)
    (upd : ℕ → ℚ → ℚ → RoundUpdate) (deep : DeepParams)
    (aS : SGridArgs) (aX : XGridArgs)
    (hS : aS.Sp.length ≠ aS.Mp.length ∨ aS.Sm.length ≠ aS.Mm.length)
    (hX : aX.Xp.length ≠ aX.Mp.length ∨ aX.Xm.length ≠ aX.Mm.length) :
    mkModelFromSGrid step upd deep aS = .error lengthMismatchError
    ∧ mkModelFromXGrid step upd deep aX = .error lengthMismatchError := by
  constructor
  · rw [mkModelFromSGrid, if_pos hS]
  · rw [mkModelFromXGrid, if_pos hX]

/-- C4 witness: spec §8 scenario B — right-wing grid of length 2 with
right-wing slope array of length 1, for both forms. -/
theorem mkModel_length_mismatch_error_witness :
    ((sGridArgsB.Sp.length ≠ sGridArgsB.Mp.length
        ∨ sGridArgsB.Sm.length ≠ sGridArgsB.Mm.length)
     ∧ (xGridArgsB.Xp.length ≠ xGridArgsB.Mp.length
        ∨ xGridArgsB.Xm.length ≠ xGridArgsB.Mm.length))
    ∧ (mkModelFromSGrid stepNone updZero deepEx sGridArgsB
          = .error lengthMismatchError
       ∧ mkModelFromXGrid stepNone updZero deepEx xGridArgsB
          = .error lengthMismatchError) :=
  ⟨⟨by decide, by decide⟩,
   mkModel_length_mismatch_error stepNone updZero deepEx sGridArgsB xGridArgsB
     (by decide) (by decide)⟩

/-- C5: queries beyond the extrapolation bound resolve with the
flat-extrapolated tail and never fail (all queries are total functions):
the vol query at a level beyond every right-wing knot returns the constant
flat tail vol, symmetrically on the left wing, and the
expectation/variance sum over segments clipped to the extrapolation bound
evaluates every segment contribution on an empty interval once the strike
coordinate lies beyond the bound. -/
theorem queries_flat_extrapolation (m : Model) (prim primSq : ℕ → ℚ → ℚ)
    (SR SL hi xK : ℚ)
    (hR : ∀ e ∈ wingSegs m true, e.1 ≤ SR) (hR0 : m.S0 ≤ SR)
    (hL : ∀ e ∈ wingSegs m false, SL ≤ e.1) (hL0 : SL < m.S0)
    (hB : hi ≤ xK) :
    localVolQuery m SR = tailVol m.sigma0 (wingSegs m true)
    ∧ localVolQuery m SL = tailVol m.sigma0 (wingSegs m false)
    ∧ (expectationQueryM prim m hi xK).1 = 0
    ∧ (varianceQueryM primSq m hi xK).1 = 0 := by
  refine ⟨?_, ?_, ?_, ?_⟩
  · rw [localVolQuery, if_pos hR0]
    exact localVolRight_flat _ _ _ _ hR
  · rw [localVolQuery, if_neg (not_le.2 hL0)]
    exact localVolLeft_flat _ _ _ _ hL
  · exact sumPrim_empty prim 0 m.mu m.Xp xK hi hB
  · exact sumPrim_empty primSq 0 m.mu m.Xp xK hi hB

/-- C5 witness: a concrete model queried at a level beyond both wings and a
strike coordinate beyond the bound. -/
theorem queries_flat_extrapolation_witness :
    ((∀ e ∈ wingSegs modelEx true, e.1 ≤ (130 : ℚ))
     ∧ modelEx.S0 ≤ (130 : ℚ)
     ∧ (∀ e ∈ wingSegs modelEx false, (70 : ℚ) ≤ e.1)
     ∧ (70 : ℚ) < modelEx.S0
     ∧ (10 : ℚ) ≤ 12)
    ∧ (localVolQuery modelEx 130 = tailVol modelEx.sigma0 (wingSegs modelEx true)
       ∧ localVolQuery modelEx 70 = tailVol modelEx.sigma0 (wingSegs modelEx false)
       ∧ (expectationQueryM (fun _ _ => 0) modelEx 10 12).1 = 0
       ∧ (varianceQueryM (fun _ _ => 0) modelEx 10 12).1 = 0) :=
  ⟨⟨by decide, by decide, by decide, by decide, by decide⟩,
   queries_flat_extrapolation modelEx (fun _ _ => 0) (fun _ _ => 0) 130 70 10 12
     (by decide) (by decide) (by decide) (by decide) (by decide)⟩

/-- C6: on every segment with positive anchor vol the closed-form maps are
mutual inverses (exactly, hence within any numerical tolerance): level of
coordinate of a level returns the level (on the domain where the vol stays
positive), and coordinate of level of a coordinate returns the coordinate —
by the closed form alone, with no iterative root-finding. -/
theorem underlying_roundtrip (xk Sk sigk sl x S : ℝ) (hsig : 0 < sigk)
    (hdom : 0 < 1 + sl * (S - Sk) / sigk) :
    underlyingSSeg xk Sk sigk sl (underlyingXSeg xk Sk sigk sl S) = S
    ∧ underlyingXSeg xk Sk sigk sl (underlyingSSeg xk Sk sigk sl x) = x := by
  have hs0 : sigk ≠ 0 := ne_of_gt hsig
  by_cases hm : sl = 0
  · subst hm
    constructor
    · rw [underlyingXSeg, if_pos rfl, underlyingSSeg, if_pos rfl]
      field_simp
      ring
    · rw [underlyingSSeg, if_pos rfl, underlyingXSeg, if_pos rfl]
      field_simp
  · constructor
    · have harg : sl * (xk + Real.log (1 + sl * (S - Sk) / sigk) / sl - xk)
          = Real.log (1 + sl * (S - Sk) / sigk) := by
        field_simp
        ring
      rw [underlyingXSeg, if_neg hm, underlyingSSeg, if_neg hm, harg,
        Real.exp_log hdom]
      field_simp
      ring
    · have h1 : 1 + sl * (Sk + sigk / sl * (Real.exp (sl * (x - xk)) - 1) - Sk) / sigk
          = Real.exp (sl * (x - xk)) := by
        field_simp
        ring
      rw [underlyingSSeg, if_neg hm, underlyingXSeg, if_neg hm, h1, Real.log_exp]
      field_simp

/-- C6 witness: the round trip at a concrete knot (slope 0, unit vol). -/
theorem underlying_roundtrip_witness :
    ((0 : ℝ) < 1 ∧ (0 : ℝ) < 1 + 0 * ((3 : ℝ) - 1) / 1)
    ∧ (underlyingSSeg 0 1 1 0 (underlyingXSeg 0 1 1 0 3) = 3
       ∧ underlyingXSeg 0 1 1 0 (underlyingSSeg 0 1 1 0 2) = 2) :=
  ⟨⟨by simp, by simp⟩, underlying_roundtrip 0 1 1 0 2 3 (by simp) (by simp)⟩

/-- C7 counterexample: two coordinate-grid constructions agreeing on every
argument the claim lists (T, S0, sigmaATM, both grids, both slope arrays
and all calibration controls) but differing in the constructor's fourth,
mandatory `sigma0` parameter produce different models — the x-grid form
does require a further mandatory argument, refuting the claim as stated. -/
theorem xGrid_requires_sigma0_counterexample :
    (mkModelFromXGrid stepNone updZero deepEx xGridArgs1).toOption.map Model.sigma0
      ≠ (mkModelFromXGrid stepNone updZero deepEx xGridArgs2).toOption.map Model.sigma0 := by
  decide

/-- C7 (amended): there are two construction forms; both require T, S0,
sigmaATM, right/left grids and right/left slopes, with the shared
calibration-control defaults — iteration cap 5, warm-up iteration count 0,
post-hoc adjustment enabled, logging disabled, seeded-mu disabled with seed
0.0 — and the coordinate-grid form additionally requires a mandatory
`sigma0` argument, on which its result genuinely depends. -/
theorem ctor_two_forms_defaults :
    ({} : CalibControls).maxCalibrationIters = 5
    ∧ ({} : CalibControls).onlyForwardCalibrationIters = 0
    ∧ ({} : CalibControls).adjustATMFlag = true
    ∧ ({} : CalibControls).enableLogging = false
    ∧ ({} : CalibControls).useInitialMu = false
    ∧ ({} : CalibControls).initialMu = 0
    ∧ (∃ M1 M2 : Model,
        mkModelFromXGrid stepNone updZero deepEx xGridArgs1 = .ok M1
        ∧ mkModelFromXGrid stepNone updZero deepEx xGridArgs2 = .ok M2
        ∧ M1.sigma0 ≠ M2.sigma0) :=
  ⟨rfl, rfl, rfl, rfl, rfl, rfl, _, _, rfl, rfl, by decide⟩

/-- C8: every construction with `maxCalibrationIters = 0` (and otherwise
valid input), in either form, succeeds and returns a model whose `mu`
equals its seed (0 by default, the caller-supplied `initialMu` when the
seeded-mu flag is set — that is `seedMu`) and whose `sigma0` equals its
initial guess (the ATM vol for the S-grid form, the mandatory `sigma0`
argument for the x-grid form); when logging is enabled the trace contains
the non-convergence record. -/
theorem mkModel_zero_iters (step : Knot → ℚ → Option Knot)
    (upd : ℕ → ℚ → ℚ → RoundUpdate) (deep : DeepParams)
    (aS : SGridArgs) (aX : XGridArgs)
    (hcapS : aS.controls.maxCalibrationIters = 0)
    (hlenS : ¬(aS.Sp.length ≠ aS.Mp.length ∨ aS.Sm.length ≠ aS.Mm.length))
    (hokS : (monotonicGrid true aS.S0 aS.Sp && monotonicGrid false aS.S0 aS.Sm
        && decide (0 < aS.T)) = true)
    (hcapX : aX.controls.maxCalibrationIters = 0)
    (hlenX : ¬(aX.Xp.length ≠ aX.Mp.length ∨ aX.Xm.length ≠ aX.Mm.length))
    (hokX : (monotonicGrid true 0 aX.Xp && monotonicGrid false 0 aX.Xm
        && decide (0 < aX.T)) = true) :
    (∃ M : Model, mkModelFromSGrid step upd deep aS = .ok M
      ∧ M.mu = seedMu aS.controls
      ∧ M.sigma0 = aS.sigmaATM
      ∧ (aS.controls.enableLogging = true → calibrationWarning ∈ M.logging))
    ∧ (∃ M : Model, mkModelFromXGrid step upd deep aX = .ok M
      ∧ M.mu = seedMu aX.controls
      ∧ M.sigma0 = aX.sigma0
      ∧ (aX.controls.enableLogging = true → calibrationWarning ∈ M.logging)) := by
  constructor
  · refine ⟨buildModel step upd deep aS.T aS.S0 aS.sigmaATM aS.sigmaATM aS.Mp
      aS.Mm aS.controls, ?_, ?_, ?_, ?_⟩
    · rw [mkModelFromSGrid, if_neg hlenS, if_pos hokS]
    · simp [buildModel, calibrateATM, hcapS, calibLoop]
    · simp [buildModel, calibrateATM, hcapS, calibLoop]
    · intro hel
      simp [buildModel, calibrateATM, hcapS, calibLoop, hel]
  · refine ⟨buildModel step upd deep aX.T aX.S0 aX.sigmaATM aX.sigma0 aX.Mp
      aX.Mm aX.controls, ?_, ?_, ?_, ?_⟩
    · rw [mkModelFromXGrid, if_neg hlenX, if_pos hokX]
    · simp [buildModel, calibrateATM, hcapX, calibLoop]
    · simp [buildModel, calibrateATM, hcapX, calibLoop]
    · intro hel
      simp [buildModel, calibrateATM, hcapX, calibLoop, hel]

/-- C8 witness: spec §8 scenario C — zero iteration cap with logging
enabled, on a concrete valid grid for each construction form. -/
theorem mkModel_zero_iters_witness :
    (sGridArgsC.controls.maxCalibrationIters = 0
     ∧ ¬(sGridArgsC.Sp.length ≠ sGridArgsC.Mp.length
          ∨ sGridArgsC.Sm.length ≠ sGridArgsC.Mm.length)
     ∧ (monotonicGrid true sGridArgsC.S0 sGridArgsC.Sp
          && monotonicGrid false sGridArgsC.S0 sGridArgsC.Sm
          && decide (0 < sGridArgsC.T)) = true
     ∧ xGridArgsC.controls.maxCalibrationIters = 0
     ∧ ¬(xGridArgsC.Xp.length ≠ xGridArgsC.Mp.length
          ∨ xGridArgsC.Xm.length ≠ xGridArgsC.Mm.length)
     ∧ (monotonicGrid true 0 xGridArgsC.Xp
          && monotonicGrid false 0 xGridArgsC.Xm
          && decide (0 < xGridArgsC.T)) = true)
    ∧ ((∃ M : Model, mkModelFromSGrid stepNone updZero deepEx sGridArgsC = .ok M
        ∧ M.mu = seedMu sGridArgsC.controls
        ∧ M.sigma0 = sGridArgsC.sigmaATM
        ∧ (sGridArgsC.controls.enableLogging = true
            → calibrationWarning ∈ M.logging))
       ∧ (∃ M : Model, mkModelFromXGrid stepNone updZero deepEx xGridArgsC = .ok M
        ∧ M.mu = seedMu xGridArgsC.controls
        ∧ M.sigma0 = xGridArgsC.sigma0
        ∧ (xGridArgsC.controls.enableLogging = true
            → calibrationWarning ∈ M.logging))) :=
  ⟨⟨rfl, by decide, by decide, rfl, by decide, by decide⟩,
   mkModel_zero_iters stepNone updZero deepEx sGridArgsC xGridArgsC
     rfl (by decide) (by decide) rfl (by decide) (by decide)⟩

end VanillaLocalVol
